import Mathlib

/-!
Shallow embedding of the CompensationCalculator core
(`src/utils/math_helpers.py`, `src/services/equity_projection_service.py`,
`src/services/compensation_service.py`, `src/services/scenario_service.py`).

Modelling conventions:
* Python `float` money/rate values are modelled as `ℚ` (the claims under
  study are exact-arithmetic statements; every expression tree is kept
  exactly as in the source).
* Python `float.__pow__` with a real exponent (reached only on the
  `growth_rate > 0` branches) is not rational-valued; it is modelled as an
  explicit function parameter `fpow : ℚ → ℚ → ℚ`, over which all theorems
  are universally quantified.  Claims that exercise it never depend on its
  values.
* `datetime.date` is modelled as a year/month/day triple.  `date.replace`
  validates the resulting date and raises `ValueError` on an invalid one
  (e.g. Feb 29 in a non-leap year); this is modelled by an `Option` result,
  `none` standing for the raised exception, which is then propagated
  monadically exactly where Python would propagate the exception.
* `date + timedelta(days=k)` and `(d1 - d2).days` are standard-library
  calendar day arithmetic; their values never influence the claims below,
  so they are carried as abstract function parameters (fields of `Prims`).
-/

/-- Model of `datetime.date`: a year/month/day triple.  Python guarantees
validity at construction time; validity is re-checked by `py_replace_year`
exactly as `date.replace` does. -/
structure PyDate where
  year : Int
  month : Int
  day : Int
deriving DecidableEq, Repr

/-- Gregorian leap-year rule used by `datetime.date` validity checks. -/
def is_leap_year (y : Int) : Bool :=
  (y % 4 == 0 && y % 100 != 0) || y % 400 == 0

/-- Number of days in a month, as used by `datetime.date` validity checks. -/
def days_in_month (y m : Int) : Int :=
  if m = 2 then (if is_leap_year y then 29 else 28)
  else if m = 4 ∨ m = 6 ∨ m = 9 ∨ m = 11 then 30
  else 31

/-- Validity of a year/month/day triple, as enforced by `datetime.date`. -/
def is_valid_date (d : PyDate) : Bool :=
  1 ≤ d.month && d.month ≤ 12 && 1 ≤ d.day && d.day ≤ days_in_month d.year d.month

/-- `d.replace(year=y)`: keeps month and day, validates the result; `none`
models the `ValueError` Python raises for an invalid date. -/
def py_replace_year (d : PyDate) (y : Int) : Option PyDate :=
  if is_valid_date ⟨y, d.month, d.day⟩ then some ⟨y, d.month, d.day⟩ else none

/-- Python `int(x)` applied to a float/rational: truncation toward zero. -/
def pyInt (q : ℚ) : Int :=
  if 0 ≤ q then ⌊q⌋ else ⌈q⌉

/-- Python `max(a, b)`: `b` if `a ≤ b` (larger value, numerically equal to
the order-theoretic `max`). -/
def pyMax (a b : ℚ) : ℚ :=
  if a ≤ b then b else a

/-- `months_between_dates` from `src/utils/math_helpers.py`:
`(end.year - start.year) * 12 + (end.month - start.month)`. -/
def months_between_dates (start_date end_date : PyDate) : Int :=
  (end_date.year - start_date.year) * 12 + (end_date.month - start_date.month)

/-- `calculate_future_value` from `src/utils/math_helpers.py`:
`initial_value * (1 + growth_rate) ** years`, with float `**` abstracted
as `fpow`. -/
def calculate_future_value (fpow : ℚ → ℚ → ℚ) (initial_value growth_rate years : ℚ) : ℚ :=
  initial_value * fpow (1 + growth_rate) years

/-- The frequency re-quantisation step of `calculate_vested_amount`
(`src/utils/math_helpers.py` lines 62-73): the `if/elif` chain rounds the
percentage down to whole quarters/years (`int(...)` is Python truncation)
and leaves it unchanged for `"monthly"` and for any unmatched frequency
string. -/
def vesting_quantized (duration_months : Int) (frequency : String)
    (vesting_percentage : ℚ) : ℚ :=
  if frequency = "monthly" then vesting_percentage
  else if frequency = "quarterly" then
    (pyInt (vesting_percentage * ((duration_months : ℚ) / 3)) : ℚ) / ((duration_months : ℚ) / 3)
  else if frequency = "annually" then
    (pyInt (vesting_percentage * ((duration_months : ℚ) / 12)) : ℚ) / ((duration_months : ℚ) / 12)
  else vesting_percentage

/-- The vesting-fraction computation inside `calculate_vested_amount`
(`src/utils/math_helpers.py` lines 49-73), as a function of the elapsed
month count: cliff check, linear percentage (1 at/after
`duration_months`), then the frequency re-quantisation. -/
def vesting_fraction (cliff_months duration_months : Int) (frequency : String)
    (months_since_vesting : Int) : ℚ :=
  if months_since_vesting < cliff_months then 0
  else
    vesting_quantized duration_months frequency
      (if duration_months ≤ months_since_vesting then 1
       else (months_since_vesting : ℚ) / (duration_months : ℚ))

/-- `calculate_vested_amount` from `src/utils/math_helpers.py`: early
return 0 before the cliff; percentage 1 at/after `duration_months`, else
linear; frequency re-quantisation; growth applied only when
`growth_rate > 0`, with exponent `months_between(grant_start, current)/12`;
final clamp `max(0.0, ...)`. -/
def calculate_vested_amount (fpow : ℚ → ℚ → ℚ) (total_grant_value : ℚ)
    (grant_start_date vesting_start_date : PyDate)
    (cliff_months duration_months : Int) (frequency : String)
    (current_date : PyDate) (growth_rate : ℚ) : ℚ :=
  let months_since_vesting := months_between_dates vesting_start_date current_date
  if months_since_vesting < cliff_months then 0
  else
    let vesting_percentage : ℚ :=
      if duration_months ≤ months_since_vesting then 1
      else (months_since_vesting : ℚ) / (duration_months : ℚ)
    let vesting_percentage : ℚ :=
      if frequency = "monthly" then vesting_percentage
      else if frequency = "quarterly" then
        (pyInt (vesting_percentage * ((duration_months : ℚ) / 3)) : ℚ) / ((duration_months : ℚ) / 3)
      else if frequency = "annually" then
        (pyInt (vesting_percentage * ((duration_months : ℚ) / 12)) : ℚ) / ((duration_months : ℚ) / 12)
      else vesting_percentage
    let vested_value := total_grant_value * vesting_percentage
    let vested_value :=
      if 0 < growth_rate then
        calculate_future_value fpow vested_value growth_rate
          ((months_between_dates grant_start_date current_date : ℚ) / 12)
      else vested_value
    pyMax 0 vested_value

/-- `calculate_refresh_grant` from `src/utils/math_helpers.py`: 0 when the
rate is ≤ 0, else a flat `refresh_rate / 100` share of the original grant
value (the `years_since_original` argument is unused by the source too). -/
def calculate_refresh_grant (original_grant_value refresh_rate _years_since_original : ℚ) : ℚ :=
  if refresh_rate ≤ 0 then 0
  else original_grant_value * (refresh_rate / 100)

/-- `VestingSchedule` from `src/models/compensation.py`.  Pydantic enforces
`cliff_months ≥ 0`, `duration_months ≥ 1` and restricts `frequency` to the
literals `"monthly","quarterly","annually"`; those constraints appear as
hypotheses in the theorems that need them. -/
structure VestingSchedule where
  cliff_months : Int
  duration_months : Int
  frequency : String
deriving DecidableEq, Repr

/-- `EquityGrant` from `src/models/compensation.py` (`type` is the
instrument kind literal, carried but never used by the valuation math). -/
structure EquityGrant where
  type : String
  value : ℚ
  vesting_schedule : VestingSchedule
  start_date : PyDate
  refresh_rate : Option ℚ
  growth_rate : ℚ
deriving DecidableEq, Repr

/-- `CompensationOffer` from `src/models/compensation.py`. -/
structure CompensationOffer where
  offer_name : String
  base_salary : ℚ
  signing_bonus : ℚ
  bonus_percentage : ℚ
  bonus_fixed : ℚ
  equity_grants : List EquityGrant
  start_date : PyDate
deriving DecidableEq, Repr

/-- `YearlyProjection` from `src/models/compensation.py`. -/
structure YearlyProjection where
  year : Int
  base_salary : ℚ
  bonus : ℚ
  equity_value : ℚ
  total : ℚ
deriving DecidableEq, Repr

/-- `OfferProjection` from `src/models/compensation.py`. -/
structure OfferProjection where
  offer_name : String
  years : List YearlyProjection
deriving DecidableEq, Repr

/-- An untyped scenario descriptor dict, as consumed by
`ScenarioService.compare_scenarios`: each `.get(...)` access is modelled by
an `Option` field (`none` = key absent). -/
structure ScenarioDesc where
  type : Option String
  new_start_date : Option PyDate
  exit_valuation : Option ℚ
  exit_year : Option Int
  growth_rate : Option ℚ
  refresh_rate : Option ℚ
deriving DecidableEq, Repr

/-- Abstracted Python standard-library primitives threaded through the
services: float `**` (`fpow`), `date + timedelta(days=·)` (`addDays`),
`(d1 - d2).days` (`diffDays`), and the f-string scenario labels of
`compare_scenarios` (`scenarioLabel`, whose float formatting is not part of
any claim).  Every theorem is universally quantified over these. -/
structure Prims where
  fpow : ℚ → ℚ → ℚ
  addDays : PyDate → Int → PyDate
  diffDays : PyDate → PyDate → Int
  scenarioLabel : Nat → ScenarioDesc → String

/-- `EquityProjectionService._get_year_date`:
`start_date.replace(year=start_date.year + year - 1)`; `none` models the
`ValueError` raised when the shifted date is invalid (leap-day starts). -/
def get_year_date (start_date : PyDate) (year : Int) : Option PyDate :=
  py_replace_year start_date (start_date.year + year - 1)

/-- `EquityProjectionService._calculate_refresh_grants`: 0 for a missing,
zero or negative refresh rate (`not grant.refresh_rate or
grant.refresh_rate <= 0` — both `None` and `0.0` are falsy) and for
`year <= 1`; otherwise the flat refresh value, compounded by the grant's
growth rate when that is positive. -/
def calculate_refresh_grants (fpow : ℚ → ℚ → ℚ) (grant : EquityGrant)
    (year_date : PyDate) (year : Int) : ℚ :=
  match grant.refresh_rate with
  | none => 0
  | some r =>
    if r ≤ 0 then 0
    else if year ≤ 1 then 0
    else
      let years_since_grant : ℚ := (months_between_dates grant.start_date year_date : ℚ) / 12
      let refresh_value := calculate_refresh_grant grant.value r years_since_grant
      if 0 < grant.growth_rate then
        calculate_future_value fpow refresh_value grant.growth_rate years_since_grant
      else refresh_value

/-- `EquityProjectionService._calculate_grant_value_for_year`: vested value
(with the grant acting as both grant and vesting start) plus refresh
value. -/
def calculate_grant_value_for_year (fpow : ℚ → ℚ → ℚ) (grant : EquityGrant)
    (year_date : PyDate) (year : Int) : ℚ :=
  calculate_vested_amount fpow grant.value grant.start_date grant.start_date
      grant.vesting_schedule.cliff_months grant.vesting_schedule.duration_months
      grant.vesting_schedule.frequency year_date grant.growth_rate
    + calculate_refresh_grants fpow grant year_date year

/-- `EquityProjectionService.calculate_year_equity_value`: sum the per-grant
values at the year's date; a `ValueError` from `_get_year_date`
propagates. -/
def calculate_year_equity_value (fpow : ℚ → ℚ → ℚ) (offer : CompensationOffer)
    (year : Int) : Option ℚ :=
  (get_year_date offer.start_date year).map fun year_date =>
    offer.equity_grants.foldl
      (fun acc grant => acc + calculate_grant_value_for_year fpow grant year_date year) 0

/-- `CompensationService._calculate_bonus`: fixed plus percentage bonus,
with the signing bonus added only in year 1. -/
def calculate_bonus (offer : CompensationOffer) (year : Int) : ℚ :=
  if year = 1 then
    offer.signing_bonus + offer.bonus_fixed + offer.base_salary * offer.bonus_percentage / 100
  else
    offer.bonus_fixed + offer.base_salary * offer.bonus_percentage / 100

/-- `CompensationService._calculate_year_projection`: assembles one
`YearlyProjection`, with `total = base_salary + bonus + equity_value`. -/
def calculate_year_projection (fpow : ℚ → ℚ → ℚ) (offer : CompensationOffer)
    (year : Int) : Option YearlyProjection :=
  (calculate_year_equity_value fpow offer year).map fun equity_value =>
    let bonus := calculate_bonus offer year
    { year := year, base_salary := offer.base_salary, bonus := bonus,
      equity_value := equity_value,
      total := offer.base_salary + bonus + equity_value }

/-- The `for year in range(1, years + 1)` loop of
`CompensationService.compute_total_comp`, unrolled as recursion on the
number of remaining years, starting at year number `year`. -/
def project_from (fpow : ℚ → ℚ → ℚ) (offer : CompensationOffer) (year : Int) :
    Nat → Option (List YearlyProjection)
  | 0 => some []
  | n + 1 =>
    match calculate_year_projection fpow offer year with
    | none => none
    | some p =>
      match project_from fpow offer (year + 1) n with
      | none => none
      | some rest => some (p :: rest)

/-- `CompensationService.compute_total_comp`: yearly projections for years
`1..years` packaged with the offer name. -/
def compute_total_comp (fpow : ℚ → ℚ → ℚ) (offer : CompensationOffer)
    (years : Nat) : Option OfferProjection :=
  (project_from fpow offer 1 years).map fun yearly_projections =>
    { offer_name := offer.offer_name, years := yearly_projections }

/-- The per-year body of `EquityProjectionService.simulate_exit_scenario`:
per-grant vested value (no refresh term in this code path), multiplied by
`exit_valuation / 1_000_000_000` for years at/after `exit_year`. -/
def exit_year_equity (fpow : ℚ → ℚ → ℚ) (offer : CompensationOffer)
    (exit_valuation : ℚ) (exit_year : Int) (year : Int) : Option ℚ :=
  (get_year_date offer.start_date year).map fun year_date =>
    offer.equity_grants.foldl
      (fun acc grant =>
        let vested_value := calculate_vested_amount fpow grant.value grant.start_date
          grant.start_date grant.vesting_schedule.cliff_months
          grant.vesting_schedule.duration_months grant.vesting_schedule.frequency
          year_date grant.growth_rate
        let vested_value :=
          if exit_year ≤ year then vested_value * (exit_valuation / 1000000000)
          else vested_value
        acc + vested_value) 0

/-- The `for year in range(1, years + 1)` loop of
`simulate_exit_scenario`, as recursion on the remaining year count. -/
def exit_equity_from (fpow : ℚ → ℚ → ℚ) (offer : CompensationOffer)
    (exit_valuation : ℚ) (exit_year : Int) (year : Int) :
    Nat → Option (List ℚ)
  | 0 => some []
  | n + 1 =>
    match exit_year_equity fpow offer exit_valuation exit_year year with
    | none => none
    | some v =>
      match exit_equity_from fpow offer exit_valuation exit_year (year + 1) n with
      | none => none
      | some rest => some (v :: rest)

/-- `EquityProjectionService.simulate_exit_scenario`: the per-year
exit-adjusted equity list for years `1..years`. -/
def simulate_exit_scenario (fpow : ℚ → ℚ → ℚ) (offer : CompensationOffer)
    (exit_valuation : ℚ) (exit_year : Int) (years : Nat) : Option (List ℚ) :=
  exit_equity_from fpow offer exit_valuation exit_year 1 years

/-!
`ScenarioService` (`src/services/scenario_service.py`).  The Python
transforms `offer.model_copy(deep=True)` and then mutate the copy's
fields; the caller's offer is therefore unchanged after the call.  To keep
that frame effect visible in a pure embedding, each transform returns a
pair: first the projection result, second the offer the caller's variable
refers to after the call (the deep copy means this is the original,
untouched; had the source mutated its argument in place, this component
would have been the mutated offer instead).
-/

/-- `ScenarioService.simulate_start_date_offset`: deep-copy, set the copy's
`start_date`, shift every copied grant's `start_date` by the day delta
`(new_start_date - offer.start_date).days`, and re-project the copy. -/
def simulate_start_date_offset (P : Prims) (offer : CompensationOffer)
    (new_start_date : PyDate) (years : Nat) :
    Option OfferProjection × CompensationOffer :=
  let date_offset := P.diffDays new_start_date offer.start_date
  let adjusted_offer :=
    { offer with
      start_date := new_start_date,
      equity_grants := offer.equity_grants.map fun grant =>
        { grant with start_date := P.addDays grant.start_date date_offset } }
  (compute_total_comp P.fpow adjusted_offer years, offer)

/-- `ScenarioService.simulate_exit`: the base projection with each year's
equity (and total) replaced by the exit-adjusted equity list entry of the
same index (the source indexes by position; the two lists always have
length `years`, so pairing by `zip` is the same access pattern), the offer
name suffixed with `" (Exit Scenario)"`. -/
def simulate_exit (fpow : ℚ → ℚ → ℚ) (offer : CompensationOffer)
    (exit_valuation : ℚ) (exit_year : Int) (years : Nat) : Option OfferProjection :=
  match compute_total_comp fpow offer years with
  | none => none
  | some base_projection =>
    match simulate_exit_scenario fpow offer exit_valuation exit_year years with
    | none => none
    | some exit_equity_values =>
      some
        { offer_name := offer.offer_name ++ " (Exit Scenario)",
          years := (base_projection.years.zip exit_equity_values).map fun yp =>
            { year := yp.1.year, base_salary := yp.1.base_salary, bonus := yp.1.bonus,
              equity_value := yp.2,
              total := yp.1.base_salary + yp.1.bonus + yp.2 } }

/-- `ScenarioService.simulate_growth_rate_change`: deep-copy, set every
copied grant's `growth_rate`, re-project; the second component is the
caller's offer after the call. -/
def simulate_growth_rate_change (P : Prims) (offer : CompensationOffer)
    (new_growth_rate : ℚ) (years : Nat) :
    Option OfferProjection × CompensationOffer :=
  let adjusted_offer :=
    { offer with
      equity_grants := offer.equity_grants.map fun grant =>
        { grant with growth_rate := new_growth_rate } }
  (compute_total_comp P.fpow adjusted_offer years, offer)

/-- `ScenarioService.simulate_refresh_rate_change`: deep-copy, set every
copied grant's `refresh_rate`, re-project; the second component is the
caller's offer after the call. -/
def simulate_refresh_rate_change (P : Prims) (offer : CompensationOffer)
    (new_refresh_rate : ℚ) (years : Nat) :
    Option OfferProjection × CompensationOffer :=
  let adjusted_offer :=
    { offer with
      equity_grants := offer.equity_grants.map fun grant =>
        { grant with refresh_rate := some new_refresh_rate } }
  (compute_total_comp P.fpow adjusted_offer years, offer)

/-- One iteration of the `for i, scenario in enumerate(scenarios)` loop of
`ScenarioService.compare_scenarios`.  Result: `none` models an exception
escaping the loop body; `some none` models "no projection appended for
this descriptor" (missing/falsy required field, or unknown `type`);
`some (some p)` the appended, relabelled projection.  Python truthiness is
kept: `if new_start_date:` is false only for `None`, `if exit_valuation:`
also for `0.0`, while the growth/refresh branches test `is not None`. -/
def run_scenario (P : Prims) (base_offer : CompensationOffer) (years : Nat)
    (i : Nat) (scenario : ScenarioDesc) : Option (Option OfferProjection) :=
  if scenario.type = some "start_date" then
    match scenario.new_start_date with
    | some new_start_date =>
      (simulate_start_date_offset P base_offer new_start_date years).1.map fun p =>
        some { p with offer_name := P.scenarioLabel i scenario }
    | none => some none
  else if scenario.type = some "exit" then
    match scenario.exit_valuation with
    | some exit_valuation =>
      if exit_valuation = 0 then some none
      else
        (simulate_exit P.fpow base_offer exit_valuation
            (scenario.exit_year.getD 4) years).map fun p =>
          some { p with offer_name := P.scenarioLabel i scenario }
    | none => some none
  else if scenario.type = some "growth_rate" then
    match scenario.growth_rate with
    | some new_growth_rate =>
      (simulate_growth_rate_change P base_offer new_growth_rate years).1.map fun p =>
        some { p with offer_name := P.scenarioLabel i scenario }
    | none => some none
  else if scenario.type = some "refresh_rate" then
    match scenario.refresh_rate with
    | some new_refresh_rate =>
      (simulate_refresh_rate_change P base_offer new_refresh_rate years).1.map fun p =>
        some { p with offer_name := P.scenarioLabel i scenario }
    | none => some none
  else some none

/-- The scenario loop of `compare_scenarios` over the enumerated descriptor
list, collecting the appended projections in order. -/
def compare_go (P : Prims) (base_offer : CompensationOffer) (years : Nat) :
    List (Nat × ScenarioDesc) → Option (List OfferProjection)
  | [] => some []
  | (i, scenario) :: rest =>
    match run_scenario P base_offer years i scenario with
    | none => none
    | some r =>
      match compare_go P base_offer years rest with
      | none => none
      | some tail => some (match r with | some p => p :: tail | none => tail)

/-- `ScenarioService.compare_scenarios`: base projection first, then the
loop over the enumerated scenario descriptors. -/
def compare_scenarios (P : Prims) (base_offer : CompensationOffer)
    (scenarios : List ScenarioDesc) (years : Nat) : Option (List OfferProjection) :=
  match compute_total_comp P.fpow base_offer years with
  | none => none
  | some base_projection =>
    match compare_go P base_offer years scenarios.enum with
    | none => none
    | some tail => some (base_projection :: tail)

/-- One entry of the `yearly_differences` list of
`calculate_scenario_impact`. -/
structure YearlyDiff where
  year : Int
  difference : ℚ
  percentage_change : ℚ
deriving DecidableEq, Repr

/-- The result dict of `calculate_scenario_impact`. -/
structure ScenarioImpact where
  total_difference : ℚ
  percentage_change : ℚ
  yearly_differences : List YearlyDiff
  scenario_name : String
deriving DecidableEq, Repr

/-- `ScenarioService.calculate_scenario_impact`: totals over both
projections, overall and per-year deltas; the per-year loop is the
source's `zip(base_projection.years, scenario_projection.years)`, which
silently truncates to the shorter list.  The function is total: no length
check exists in the source. -/
def calculate_scenario_impact (base_projection scenario_projection : OfferProjection) :
    ScenarioImpact :=
  let base_total := (base_projection.years.map (·.total)).sum
  let scenario_total := (scenario_projection.years.map (·.total)).sum
  let total_difference := scenario_total - base_total
  let percentage_change := if 0 < base_total then total_difference / base_total * 100 else 0
  let yearly_differences :=
    (base_projection.years.zip scenario_projection.years).map fun p =>
      { year := p.1.year,
        difference := p.2.total - p.1.total,
        percentage_change :=
          if 0 < p.1.total then (p.2.total - p.1.total) / p.1.total * 100 else 0 }
  { total_difference := total_difference, percentage_change := percentage_change,
    yearly_differences := yearly_differences,
    scenario_name := scenario_projection.offer_name }

/-!  Statement-side predicates and concrete evaluation data. -/

/-- Lexicographic order on dates, matching `datetime.date` comparison. -/
def dateLe (a b : PyDate) : Prop :=
  a.year < b.year ∨
    (a.year = b.year ∧ (a.month < b.month ∨ (a.month = b.month ∧ a.day ≤ b.day)))

instance (a b : PyDate) : Decidable (dateLe a b) :=
  inferInstanceAs (Decidable (_ ∨ (_ ∧ (_ ∨ (_ ∧ _)))))

/-- A month field in the range `datetime.date` guarantees. -/
def valid_month (d : PyDate) : Prop := 1 ≤ d.month ∧ d.month ≤ 12

instance (d : PyDate) : Decidable (valid_month d) :=
  inferInstanceAs (Decidable (_ ∧ _))

/-- A scenario descriptor that declares one of the four known types and
carries that type's required field — the well-formedness notion of the
batch contract. -/
def scenario_well_typed (s : ScenarioDesc) : Bool :=
  if s.type = some "start_date" then s.new_start_date.isSome
  else if s.type = some "exit" then s.exit_valuation.isSome
  else if s.type = some "growth_rate" then s.growth_rate.isSome
  else if s.type = some "refresh_rate" then s.refresh_rate.isSome
  else false

/-- No grant of the offer carries a positive refresh rate. -/
def no_positive_refresh (offer : CompensationOffer) : Bool :=
  offer.equity_grants.all fun grant =>
    match grant.refresh_rate with
    | none => true
    | some r => decide (r ≤ 0)

/-- A concrete interpretation of the abstracted standard-library
primitives, used to evaluate the embedding on closed inputs (no claim's
truth depends on its values: every input below keeps `growth_rate = 0` and
avoids day arithmetic). -/
def somePrims : Prims where
  fpow := fun b e => if e.den = 1 then b ^ e.num else b
  addDays := fun d k => ⟨d.year, d.month, d.day + k⟩
  diffDays := fun _ _ => 0
  scenarioLabel := fun _ _ => "relabelled"

/-- 2020-01-01, a grant/vesting start date used in concrete checks. -/
def dJan2020 : PyDate := ⟨2020, 1, 1⟩

/-- 2020-11-01: ten whole months after `dJan2020`. -/
def dNov2020 : PyDate := ⟨2020, 11, 1⟩

/-- 2024-01-01: forty-eight whole months after `dJan2020`. -/
def dJan2024 : PyDate := ⟨2024, 1, 1⟩

/-- 2019-02-01: eleven months before `dJan2020` (negative elapsed time). -/
def dFeb2019 : PyDate := ⟨2019, 2, 1⟩

/-- 2021-01-01 and 2022-01-01, for the monotonicity evaluation. -/
def dJan2021 : PyDate := ⟨2021, 1, 1⟩

/-- 2022-01-01, twenty-four whole months after `dJan2020`. -/
def dJan2022 : PyDate := ⟨2022, 1, 1⟩

/-- A 100-unit monthly grant, 12-month duration, no cliff, with a 25%
refresh rate and zero growth. -/
def grantR : EquityGrant where
  type := "RSU"
  value := 100
  vesting_schedule := { cliff_months := 0, duration_months := 12, frequency := "monthly" }
  start_date := dJan2020
  refresh_rate := some 25
  growth_rate := 0

/-- An offer holding only `grantR` (positive refresh rate). -/
def offerR : CompensationOffer where
  offer_name := "R"
  base_salary := 0
  signing_bonus := 0
  bonus_percentage := 0
  bonus_fixed := 0
  equity_grants := [grantR]
  start_date := dJan2020

/-- `grantR` with the refresh rate absent. -/
def grantNR : EquityGrant where
  type := "RSU"
  value := 100
  vesting_schedule := { cliff_months := 0, duration_months := 12, frequency := "monthly" }
  start_date := dJan2020
  refresh_rate := none
  growth_rate := 0

/-- An offer holding only `grantNR` (no refresh rate anywhere). -/
def offerNR : CompensationOffer where
  offer_name := "NR"
  base_salary := 0
  signing_bonus := 0
  bonus_percentage := 0
  bonus_fixed := 0
  equity_grants := [grantNR]
  start_date := dJan2020

/-- The base projection of `offerNR` over 2 years. -/
def projNR : OfferProjection where
  offer_name := "NR"
  years := [⟨1, 0, 0, 0, 0⟩, ⟨2, 0, 0, 100, 100⟩]

/-- An equity-free offer with salary 100000, signing bonus 5000, 10%
bonus and 2000 fixed bonus. -/
def offerW : CompensationOffer where
  offer_name := "W"
  base_salary := 100000
  signing_bonus := 5000
  bonus_percentage := 10
  bonus_fixed := 2000
  equity_grants := []
  start_date := dJan2020

/-- Year-1 projection of `offerW`. -/
def pW1 : YearlyProjection := ⟨1, 100000, 17000, 0, 117000⟩

/-- Year-2 projection of `offerW`. -/
def pW2 : YearlyProjection := ⟨2, 100000, 12000, 0, 112000⟩

/-- The 1-year projection of `offerW`. -/
def projW : OfferProjection := ⟨"W", [pW1]⟩

/-- A base projection with two years, for the impact-delta evaluation. -/
def baseProjC5 : OfferProjection where
  offer_name := "base"
  years := [⟨1, 100, 0, 0, 100⟩, ⟨2, 100, 0, 0, 100⟩]

/-- A scenario projection with a single year (mismatched length). -/
def scenProjC5 : OfferProjection where
  offer_name := "scen"
  years := [⟨1, 100, 0, 50, 150⟩]

/-- An equity-free offer starting on the leap day 2024-02-29. -/
def offerLeap : CompensationOffer where
  offer_name := "L"
  base_salary := 0
  signing_bonus := 0
  bonus_percentage := 0
  bonus_fixed := 0
  equity_grants := []
  start_date := ⟨2024, 2, 29⟩

/-- An equity-free base offer for the batch-scenario evaluation. -/
def offerB : CompensationOffer where
  offer_name := "B"
  base_salary := 0
  signing_bonus := 0
  bonus_percentage := 0
  bonus_fixed := 0
  equity_grants := []
  start_date := dJan2020

/-- The batch from the spec's example: a growth-rate scenario followed by
an exit scenario missing its `exit_valuation`. -/
def scensEx : List ScenarioDesc :=
  [ { type := some "growth_rate", new_start_date := none, exit_valuation := none,
      exit_year := none, growth_rate := some (15 / 100), refresh_rate := none },
    { type := some "exit", new_start_date := none, exit_valuation := none,
      exit_year := none, growth_rate := none, refresh_rate := none } ]

/-- The base projection emitted first for `offerB` over 1 year. -/
def bpB : OfferProjection := ⟨"B", [⟨1, 0, 0, 0, 0⟩]⟩

/-- The relabelled growth-scenario projection for `offerB` over 1 year. -/
def gpB : OfferProjection := ⟨"relabelled", [⟨1, 0, 0, 0, 0⟩]⟩

/-!  Helper lemmas about the vesting arithmetic. -/

/-- Python max agrees with the order-theoretic max on `ℚ`. -/
theorem pyMax_eq_max (a b : ℚ) : pyMax a b = max a b := by
  unfold pyMax
  split_ifs with h
  · exact (max_eq_right h).symm
  · exact (max_eq_left (le_of_not_le h)).symm

/-- Clamping a non-negative value at zero keeps it. -/
theorem pyMax_zero_of_nonneg (v : ℚ) (h : 0 ≤ v) : pyMax 0 v = v := by
  unfold pyMax; rw [if_pos h]

/-- Python truncation of a non-negative value is the floor. -/
theorem pyInt_of_nonneg (q : ℚ) (h : 0 ≤ q) : pyInt q = ⌊q⌋ := by
  unfold pyInt; rw [if_pos h]

/-- Truncation preserves non-negativity. -/
theorem pyInt_nonneg (q : ℚ) (h : 0 ≤ q) : 0 ≤ pyInt q := by
  rw [pyInt_of_nonneg q h]; exact Int.floor_nonneg.mpr h

/-- The frequency re-quantisation never produces a negative fraction. -/
theorem vesting_quantized_nonneg (d : Int) (f : String) (vp : ℚ)
    (hd : 0 < (d : ℚ)) (hvp : 0 ≤ vp) : 0 ≤ vesting_quantized d f vp := by
  unfold vesting_quantized
  have h3 : (0:ℚ) < (d : ℚ) / 3 := div_pos hd (by norm_num)
  have h12 : (0:ℚ) < (d : ℚ) / 12 := div_pos hd (by norm_num)
  split_ifs
  · exact hvp
  · exact div_nonneg (by exact_mod_cast pyInt_nonneg _ (mul_nonneg hvp h3.le)) h3.le
  · exact div_nonneg (by exact_mod_cast pyInt_nonneg _ (mul_nonneg hvp h12.le)) h12.le
  · exact hvp

/-- Round-down quantisation `⌊x·u⌋/u` is monotone on non-negative inputs. -/
theorem pyInt_div_mono (u x y : ℚ) (hu : 0 < u) (hx : 0 ≤ x) (hxy : x ≤ y) :
    (pyInt (x * u) : ℚ) / u ≤ (pyInt (y * u) : ℚ) / u := by
  have hxu : 0 ≤ x * u := mul_nonneg hx hu.le
  have hmul : x * u ≤ y * u := mul_le_mul_of_nonneg_right hxy hu.le
  rw [pyInt_of_nonneg _ hxu, pyInt_of_nonneg _ (le_trans hxu hmul)]
  exact (div_le_div_iff_of_pos_right hu).mpr (by exact_mod_cast Int.floor_mono hmul)

/-- The frequency re-quantisation is monotone on non-negative fractions. -/
theorem vesting_quantized_mono (d : Int) (f : String) (x y : ℚ)
    (hd : 0 < (d : ℚ)) (hx : 0 ≤ x) (hxy : x ≤ y) :
    vesting_quantized d f x ≤ vesting_quantized d f y := by
  unfold vesting_quantized
  split_ifs
  · exact hxy
  · exact pyInt_div_mono _ _ _ (div_pos hd (by norm_num)) hx hxy
  · exact pyInt_div_mono _ _ _ (div_pos hd (by norm_num)) hx hxy
  · exact hxy

/-- The vesting fraction is never negative. -/
theorem vesting_fraction_nonneg (c d : Int) (f : String) (m : Int)
    (hc : 0 ≤ c) (hd : 1 ≤ d) : 0 ≤ vesting_fraction c d f m := by
  unfold vesting_fraction
  have hd0 : (0:ℚ) < (d : ℚ) := by exact_mod_cast lt_of_lt_of_le zero_lt_one hd
  by_cases h : m < c
  · rw [if_pos h]
  · rw [if_neg h]
    apply vesting_quantized_nonneg _ _ _ hd0
    split_ifs with h2
    · exact zero_le_one
    · refine div_nonneg ?_ hd0.le
      have hm : (0:ℤ) ≤ m := le_trans hc (not_lt.mp h)
      exact_mod_cast hm

/-- The vesting fraction is monotone in the elapsed month count. -/
theorem vesting_fraction_mono (c d : Int) (f : String) (m1 m2 : Int)
    (hc : 0 ≤ c) (hd : 1 ≤ d) (h : m1 ≤ m2) :
    vesting_fraction c d f m1 ≤ vesting_fraction c d f m2 := by
  have hd0 : (0:ℚ) < (d : ℚ) := by exact_mod_cast lt_of_lt_of_le zero_lt_one hd
  by_cases h1 : m1 < c
  · rw [show vesting_fraction c d f m1 = 0 from by unfold vesting_fraction; rw [if_pos h1]]
    exact vesting_fraction_nonneg c d f m2 hc hd
  · have h2 : ¬ m2 < c := fun hlt => h1 (lt_of_le_of_lt h hlt)
    unfold vesting_fraction
    rw [if_neg h1, if_neg h2]
    have hm1 : (0:ℚ) ≤ (m1 : ℚ) := by exact_mod_cast le_trans hc (not_lt.mp h1)
    have hx : 0 ≤ (if d ≤ m1 then (1:ℚ) else (m1 : ℚ) / (d : ℚ)) := by
      split_ifs
      · exact zero_le_one
      · exact div_nonneg hm1 hd0.le
    apply vesting_quantized_mono _ _ _ _ hd0 hx
    split_ifs with ha hb hb
    · exact le_refl 1
    · exact absurd (le_trans ha h) hb
    · exact (div_le_one hd0).mpr (by exact_mod_cast le_of_lt (not_le.mp ha))
    · exact (div_le_div_iff_of_pos_right hd0).mpr (by exact_mod_cast h)

/-- Calendar order implies order of whole-month counts (day-of-month is
ignored by `months_between_dates`). -/
theorem months_between_mono (s a b : PyDate) (hma : valid_month a) (hmb : valid_month b)
    (hab : dateLe a b) : months_between_dates s a ≤ months_between_dates s b := by
  obtain ⟨ha1, ha2⟩ := hma
  obtain ⟨hb1, hb2⟩ := hmb
  unfold months_between_dates
  rcases hab with h | ⟨he, h | ⟨he2, _⟩⟩ <;> omega

/-- With zero growth, `calculate_vested_amount` is the clamped product of
the grant value and the vesting fraction. -/
theorem vested_amount_zero_growth (fpow : ℚ → ℚ → ℚ) (v : ℚ) (gs vs cur : PyDate)
    (c d : Int) (f : String) :
    calculate_vested_amount fpow v gs vs c d f cur 0 =
      pyMax 0 (v * vesting_fraction c d f (months_between_dates vs cur)) := by
  unfold calculate_vested_amount vesting_fraction vesting_quantized
  by_cases h : months_between_dates vs cur < c
  · simp [h, pyMax]
  · simp [h]

/-- C1 (amended): once the elapsed whole months reach `duration_months`,
the un-grown vested value equals the grant value exactly — for monthly
vesting always, for quarterly vesting when `duration_months` is divisible
by 3, and for annual vesting when it is divisible by 12 (and a cliff not
exceeding the duration, which the data-model invariant expects). -/
theorem c1_full_vest (fpow : ℚ → ℚ → ℚ) (v : ℚ) (gs vs cur : PyDate) (c d : Int)
    (f : String) (hv : 0 ≤ v) (hcd : c ≤ d) (hd : 1 ≤ d)
    (helapsed : d ≤ months_between_dates vs cur)
    (hf : f = "monthly" ∨ (f = "quarterly" ∧ (3:Int) ∣ d) ∨
      (f = "annually" ∧ (12:Int) ∣ d)) :
    calculate_vested_amount fpow v gs vs c d f cur 0 = v := by
  rw [vested_amount_zero_growth]
  have hfrac : vesting_fraction c d f (months_between_dates vs cur) = 1 := by
    unfold vesting_fraction
    rw [if_neg (not_lt.mpr (le_trans hcd helapsed)), if_pos helapsed]
    unfold vesting_quantized
    rcases hf with hm | ⟨hq, k, hk⟩ | ⟨ha, k, hk⟩
    · rw [if_pos hm]
    · subst hq hk
      have hk1 : 1 ≤ k := by omega
      rw [if_neg (by decide), if_pos rfl]
      have hc3 : (((3 * k : Int) : ℚ)) / 3 = (k : ℚ) := by push_cast; ring
      rw [hc3, one_mul, pyInt_of_nonneg _ (by exact_mod_cast (by omega : (0:Int) ≤ k)),
        Int.floor_intCast]
      exact div_self (by exact_mod_cast (by omega : k ≠ 0))
    · subst ha hk
      have hk1 : 1 ≤ k := by omega
      rw [if_neg (by decide), if_neg (by decide), if_pos rfl]
      have hc12 : (((12 * k : Int) : ℚ)) / 12 = (k : ℚ) := by push_cast; ring
      rw [hc12, one_mul, pyInt_of_nonneg _ (by exact_mod_cast (by omega : (0:Int) ≤ k)),
        Int.floor_intCast]
      exact div_self (by exact_mod_cast (by omega : k ≠ 0))
  rw [hfrac, mul_one, pyMax_zero_of_nonneg v hv]

/-- C1 counterexample: a quarterly grant with `duration_months = 10` (not
divisible by 3) and elapsed months equal to the duration vests 90, not its
full value 100: the claim's "for every frequency and every
duration_months >= 1" fails. -/
theorem c1_counterexample :
    (10:Int) ≤ months_between_dates dJan2020 dNov2020 ∧
    calculate_vested_amount somePrims.fpow 100 dJan2020 dJan2020 0 10 "quarterly"
        dNov2020 0 = 90 ∧
    calculate_vested_amount somePrims.fpow 100 dJan2020 dJan2020 0 10 "quarterly"
        dNov2020 0 ≠ 100 := by
  have h : calculate_vested_amount somePrims.fpow 100 dJan2020 dJan2020 0 10 "quarterly"
      dNov2020 0 = 90 := by
    simp [calculate_vested_amount, months_between_dates, dJan2020, dNov2020, pyInt, pyMax,
      calculate_future_value]
    norm_num
  exact ⟨by decide, h, by rw [h]; norm_num⟩

/-- C1 witness: a monthly 48-month grant evaluated 48 months in vests its
full value. -/
theorem c1_witness :
    (48:Int) ≤ months_between_dates dJan2020 dJan2024 ∧
    calculate_vested_amount somePrims.fpow 100 dJan2020 dJan2020 12 48 "monthly"
        dJan2024 0 = 100 :=
  ⟨by decide,
    c1_full_vest somePrims.fpow 100 dJan2020 dJan2020 dJan2024 12 48 "monthly"
      (by norm_num) (by decide) (by decide) (by decide) (Or.inl rfl)⟩

/-- C7: whenever the elapsed whole months from the vesting start to the
as-of date fall below `cliff_months` — the negative-elapsed case included —
the vested value is exactly 0, for any growth rate. -/
theorem c7_zero_before_cliff (fpow : ℚ → ℚ → ℚ) (v : ℚ) (gs vs cur : PyDate)
    (c d : Int) (f : String) (g : ℚ)
    (h : months_between_dates vs cur < c) :
    calculate_vested_amount fpow v gs vs c d f cur g = 0 := by
  unfold calculate_vested_amount
  rw [if_pos h]

/-- C7 witness: an as-of date eleven months before the vesting start
(negative elapsed months) yields 0 under a 12-month cliff, even with a
positive growth rate. -/
theorem c7_witness :
    months_between_dates dJan2020 dFeb2019 < 0 ∧
    months_between_dates dJan2020 dFeb2019 < 12 ∧
    calculate_vested_amount somePrims.fpow 100 dJan2020 dJan2020 12 48 "monthly"
        dFeb2019 (1/2) = 0 :=
  ⟨by decide, by decide,
    c7_zero_before_cliff somePrims.fpow 100 dJan2020 dJan2020 dFeb2019 12 48
      "monthly" (1/2) (by decide)⟩

/-- C8: for a fixed schedule with `cliff_months ≥ 0`, `duration_months ≥ 1`
and zero growth, the vesting fraction — and hence the vested value of a
non-negative grant — is monotone non-decreasing in the as-of date, for
every frequency string. -/
theorem c8_vesting_monotone (fpow : ℚ → ℚ → ℚ) (v : ℚ) (gs vs : PyDate) (c d : Int)
    (f : String) (d1 d2 : PyDate) (hv : 0 ≤ v) (hc : 0 ≤ c) (hd : 1 ≤ d)
    (hm1 : valid_month d1) (hm2 : valid_month d2) (h12 : dateLe d1 d2) :
    vesting_fraction c d f (months_between_dates vs d1) ≤
      vesting_fraction c d f (months_between_dates vs d2) ∧
    calculate_vested_amount fpow v gs vs c d f d1 0 ≤
      calculate_vested_amount fpow v gs vs c d f d2 0 := by
  have hm := months_between_mono vs d1 d2 hm1 hm2 h12
  have hfrac := vesting_fraction_mono c d f _ _ hc hd hm
  refine ⟨hfrac, ?_⟩
  rw [vested_amount_zero_growth, vested_amount_zero_growth, pyMax_eq_max, pyMax_eq_max]
  exact max_le_max le_rfl (mul_le_mul_of_nonneg_left hfrac hv)

/-- C8 witness: under the 12/48 monthly schedule, the fraction and value
one year in are at most those two years in. -/
theorem c8_witness :
    vesting_fraction 12 48 "monthly" (months_between_dates dJan2020 dJan2021) ≤
      vesting_fraction 12 48 "monthly" (months_between_dates dJan2020 dJan2022) ∧
    calculate_vested_amount somePrims.fpow 100 dJan2020 dJan2020 12 48 "monthly"
        dJan2021 0 ≤
      calculate_vested_amount somePrims.fpow 100 dJan2020 dJan2020 12 48 "monthly"
        dJan2022 0 :=
  c8_vesting_monotone somePrims.fpow 100 dJan2020 dJan2020 12 48 "monthly"
    dJan2021 dJan2022 (by norm_num) (by decide) (by decide) (by decide) (by decide)
    (by decide)

/-- C9: the scenario transforms — start-date shift, growth-rate override,
refresh-rate override — leave the caller's offer untouched in every field:
each Python transform deep-copies the offer (`model_copy(deep=True)`) and
mutates only the copy, so the caller-visible offer after the call (the
second component of each embedded transform) is the original offer. -/
theorem c9_transforms_pure (P : Prims) (offer : CompensationOffer) (d : PyDate)
    (g r : ℚ) (years : Nat) :
    (simulate_start_date_offset P offer d years).2 = offer ∧
    (simulate_growth_rate_change P offer g years).2 = offer ∧
    (simulate_refresh_rate_change P offer r years).2 = offer :=
  ⟨rfl, rfl, rfl⟩

/-- C5 (code behaviour at the failing input): given a 2-year base
projection and a 1-year scenario projection, `calculate_scenario_impact`
does not report any error — it returns a fully defined impact record whose
per-year list is silently truncated by `zip` to the single common year,
contradicting the spec's requirement that mismatched year-array lengths be
reported. -/
theorem c5_impact_truncates :
    baseProjC5.years.length = 2 ∧
    scenProjC5.years.length = 1 ∧
    calculate_scenario_impact baseProjC5 scenProjC5 =
      { total_difference := -50, percentage_change := -25,
        yearly_differences := [{ year := 1, difference := 50, percentage_change := 50 }],
        scenario_name := "scen" } := by
  refine ⟨rfl, rfl, ?_⟩
  simp [calculate_scenario_impact, baseProjC5, scenProjC5]
  norm_num

/-- C10: an offer constructible in the data model (its start date
2024-02-29 is a valid calendar date) makes the year-date advance fail for
year 2 (2025 has no Feb 29): `_get_year_date` raises instead of falling
back, so `calculate_year_equity_value` and the full 2-year projection
raise as well. -/
theorem c10_leap_day_raises :
    is_valid_date ⟨2024, 2, 29⟩ = true ∧
    get_year_date (PyDate.mk 2024 2 29) 2 = none ∧
    calculate_year_equity_value somePrims.fpow offerLeap 2 = none ∧
    compute_total_comp somePrims.fpow offerLeap 2 = none := by
  refine ⟨by decide, by decide, ?_, ?_⟩
  · simp [calculate_year_equity_value, get_year_date, py_replace_year, is_valid_date,
      days_in_month, is_leap_year, offerLeap]
  · simp [compute_total_comp, project_from, calculate_year_projection,
      calculate_year_equity_value, get_year_date, py_replace_year, is_valid_date,
      days_in_month, is_leap_year, offerLeap, calculate_bonus]

/-- C6: in every produced yearly projection, the signing bonus is included
in year 1 only: `bonus(1) - bonus(k) = signing_bonus` for any year `k ≥ 2`,
and the non-signing part of every year's bonus is
`bonus_fixed + base_salary * bonus_percentage / 100`. -/
theorem c6_signing_bonus_year1 (fpow : ℚ → ℚ → ℚ) (offer : CompensationOffer)
    (k : Int) (p1 pk : YearlyProjection) (hk : 2 ≤ k)
    (h1 : calculate_year_projection fpow offer 1 = some p1)
    (hks : calculate_year_projection fpow offer k = some pk) :
    p1.bonus - pk.bonus = offer.signing_bonus ∧
    pk.bonus = offer.bonus_fixed + offer.base_salary * offer.bonus_percentage / 100 ∧
    p1.bonus = offer.signing_bonus +
      (offer.bonus_fixed + offer.base_salary * offer.bonus_percentage / 100) := by
  unfold calculate_year_projection at h1 hks
  rw [Option.map_eq_some'] at h1 hks
  obtain ⟨ev1, he1, hp1⟩ := h1
  obtain ⟨evk, hek, hpk⟩ := hks
  have hb1 : p1.bonus = calculate_bonus offer 1 := by rw [← hp1]
  have hbk : pk.bonus = calculate_bonus offer k := by rw [← hpk]
  have hkne : ¬ (k = 1) := by omega
  rw [hb1, hbk]
  unfold calculate_bonus
  rw [if_pos rfl, if_neg hkne]
  exact ⟨by ring, rfl, by ring⟩

/-- C6 witness: for the equity-free offer `offerW` the year-1 and year-2
bonuses differ by exactly the 5000 signing bonus. -/
theorem c6_witness :
    pW1.bonus - pW2.bonus = offerW.signing_bonus ∧
    pW2.bonus = offerW.bonus_fixed + offerW.base_salary * offerW.bonus_percentage / 100 := by
  have h := c6_signing_bonus_year1 somePrims.fpow offerW 2 pW1 pW2 (by decide)
    (by simp [calculate_year_projection, calculate_bonus, calculate_year_equity_value,
          get_year_date, py_replace_year, is_valid_date, days_in_month, is_leap_year,
          offerW, pW1, dJan2020]
        norm_num)
    (by simp [calculate_year_projection, calculate_bonus, calculate_year_equity_value,
          get_year_date, py_replace_year, is_valid_date, days_in_month, is_leap_year,
          offerW, pW2, dJan2020]
        norm_num)
  exact ⟨h.1, h.2.1⟩

/-- Every projection list built by the projection loop satisfies the total
invariant. -/
theorem project_from_total (fpow : ℚ → ℚ → ℚ) (offer : CompensationOffer) :
    ∀ (n : Nat) (y : Int) (ps : List YearlyProjection),
      project_from fpow offer y n = some ps →
      ∀ p ∈ ps, p.total = p.base_salary + p.bonus + p.equity_value := by
  intro n
  induction n with
  | zero =>
    intro y ps h p hp
    unfold project_from at h
    cases h
    simp at hp
  | succ n ih =>
    intro y ps h p hp
    unfold project_from at h
    cases hx : calculate_year_projection fpow offer y with
    | none => rw [hx] at h; exact absurd h (by simp)
    | some p0 =>
      simp only [hx] at h
      cases hrest : project_from fpow offer (y + 1) n with
      | none => rw [hrest] at h; exact absurd h (by simp)
      | some rest =>
        simp only [hrest] at h
        cases h
        rcases List.mem_cons.mp hp with hEq | hmem
        · subst hEq
          unfold calculate_year_projection at hx
          rw [Option.map_eq_some'] at hx
          obtain ⟨ev, hev, hstruct⟩ := hx
          rw [← hstruct]
        · exact ih (y + 1) rest hrest p hmem

/-- C3: every `YearlyProjection` the engine produces — through the
ordinary projector `compute_total_comp` and through the exit-scenario
transform `simulate_exit` — satisfies
`total = base_salary + bonus + equity_value`. -/
theorem c3_total_invariant (P : Prims) (offer : CompensationOffer) (years : Nat) :
    (∀ proj, compute_total_comp P.fpow offer years = some proj →
      ∀ yp ∈ proj.years, yp.total = yp.base_salary + yp.bonus + yp.equity_value) ∧
    (∀ (ev : ℚ) (ey : Int) (proj2 : OfferProjection),
      simulate_exit P.fpow offer ev ey years = some proj2 →
      ∀ yp ∈ proj2.years, yp.total = yp.base_salary + yp.bonus + yp.equity_value) := by
  constructor
  · intro proj h yp hyp
    unfold compute_total_comp at h
    rw [Option.map_eq_some'] at h
    obtain ⟨ps, hps, hproj⟩ := h
    rw [← hproj] at hyp
    exact project_from_total P.fpow offer years 1 ps hps yp hyp
  · intro ev ey proj2 h yp hyp
    unfold simulate_exit at h
    cases hbase : compute_total_comp P.fpow offer years with
    | none => rw [hbase] at h; exact absurd h (by simp)
    | some bp =>
      simp only [hbase] at h
      cases hex : simulate_exit_scenario P.fpow offer ev ey years with
      | none => rw [hex] at h; exact absurd h (by simp)
      | some l =>
        simp only [hex] at h
        cases h
        obtain ⟨pair, hpair, heq⟩ := List.mem_map.mp hyp
        rw [← heq]

/-- C3 witness: the single year of the 1-year projection of `offerW`
satisfies the total invariant. -/
theorem c3_witness :
    pW1.total = pW1.base_salary + pW1.bonus + pW1.equity_value :=
  (c3_total_invariant somePrims offerW 1).1 projW
    (by simp [compute_total_comp, project_from, calculate_year_projection, calculate_bonus,
          calculate_year_equity_value, get_year_date, py_replace_year, is_valid_date,
          days_in_month, is_leap_year, offerW, projW, pW1, dJan2020]
        norm_num)
    pW1 (by simp [projW])

/-- A grant with no positive refresh rate contributes no refresh value. -/
theorem calculate_refresh_grants_eq_zero (fpow : ℚ → ℚ → ℚ) (g : EquityGrant)
    (yd : PyDate) (y : Int)
    (h : (match g.refresh_rate with
      | none => true
      | some r => decide (r ≤ 0)) = true) :
    calculate_refresh_grants fpow g yd y = 0 := by
  unfold calculate_refresh_grants
  cases hr : g.refresh_rate with
  | none => rfl
  | some r =>
    rw [hr] at h
    simp only [decide_eq_true_eq] at h
    simp [h]

/-- With exit valuation 1 000 000 000 and exit year 1, the per-grant exit
fold agrees with the ordinary equity fold whenever no grant has a positive
refresh rate. -/
theorem exit_fold_eq (fpow : ℚ → ℚ → ℚ) (yd : PyDate) (y : Int) (hy : 1 ≤ y) :
    ∀ (gs : List EquityGrant),
      (∀ g ∈ gs, (match g.refresh_rate with
        | none => true
        | some r => decide (r ≤ 0)) = true) →
      ∀ acc : ℚ,
      gs.foldl (fun acc grant =>
          let vested_value := calculate_vested_amount fpow grant.value grant.start_date
            grant.start_date grant.vesting_schedule.cliff_months
            grant.vesting_schedule.duration_months grant.vesting_schedule.frequency
            yd grant.growth_rate
          let vested_value :=
            if (1:Int) ≤ y then vested_value * ((1000000000:ℚ) / 1000000000)
            else vested_value
          acc + vested_value) acc =
        gs.foldl (fun acc grant => acc + calculate_grant_value_for_year fpow grant yd y) acc := by
  intro gs
  induction gs with
  | nil => intro hall acc; rfl
  | cons g gs ih =>
    intro hall acc
    simp only [List.foldl_cons]
    rw [ih (fun g2 hg2 => hall g2 (List.mem_cons_of_mem _ hg2))]
    congr 1
    have hg := hall g (List.mem_cons_self g gs)
    have hrefresh : calculate_refresh_grants fpow g yd y = 0 :=
      calculate_refresh_grants_eq_zero fpow g yd y hg
    unfold calculate_grant_value_for_year
    rw [hrefresh, add_zero, if_pos hy]
    norm_num

/-- The exit-equity year list with multiplier 1 equals the ordinary
projection's equity values, year by year, when no grant has a positive
refresh rate. -/
theorem exit_scenario_matches_base (fpow : ℚ → ℚ → ℚ) (offer : CompensationOffer)
    (hr : no_positive_refresh offer = true) :
    ∀ (n : Nat) (y : Int), 1 ≤ y →
      ∀ ps, project_from fpow offer y n = some ps →
        exit_equity_from fpow offer 1000000000 1 y n = some (ps.map (·.equity_value)) := by
  have hall : ∀ g ∈ offer.equity_grants,
      (match g.refresh_rate with | none => true | some r => decide (r ≤ 0)) = true := by
    unfold no_positive_refresh at hr
    exact List.all_eq_true.mp hr
  intro n
  induction n with
  | zero =>
    intro y hy ps h
    unfold project_from at h
    cases h
    rfl
  | succ n ih =>
    intro y hy ps h
    unfold project_from at h
    cases hx : calculate_year_projection fpow offer y with
    | none => rw [hx] at h; exact absurd h (by simp)
    | some p0 =>
      simp only [hx] at h
      cases hrest : project_from fpow offer (y + 1) n with
      | none => rw [hrest] at h; exact absurd h (by simp)
      | some rest =>
        simp only [hrest] at h
        cases h
        have hyev : exit_year_equity fpow offer 1000000000 1 y = some p0.equity_value := by
          unfold calculate_year_projection at hx
          rw [Option.map_eq_some'] at hx
          obtain ⟨ev, hev, hstruct⟩ := hx
          have hpev : p0.equity_value = ev := by rw [← hstruct]
          rw [hpev]
          unfold calculate_year_equity_value at hev
          unfold exit_year_equity
          cases hd : get_year_date offer.start_date y with
          | none => rw [hd] at hev; exact absurd hev (by simp)
          | some yd =>
            simp only [hd, Option.map_some'] at hev
            simp only [hd, Option.map_some']
            rw [← hev]
            exact congrArg some (exit_fold_eq fpow yd y hy offer.equity_grants hall 0)
        unfold exit_equity_from
        rw [hyev, ih (y + 1) (by omega) rest hrest]
        rfl

/-- C2 (amended): with `exit_valuation = 1_000_000_000` and
`exit_year = 1` (multiplier 1), the exit scenario's per-year equity values
equal the base projection's equity values for every year — provided no
grant of the offer carries a positive refresh rate, because
`simulate_exit_scenario` sums vested values only and drops the refresh
component that the ordinary projector adds from year 2 on. -/
theorem c2_exit_neutral (fpow : ℚ → ℚ → ℚ) (offer : CompensationOffer) (years : Nat)
    (bp : OfferProjection) (l : List ℚ)
    (h1 : compute_total_comp fpow offer years = some bp)
    (h2 : simulate_exit_scenario fpow offer 1000000000 1 years = some l)
    (hr : no_positive_refresh offer = true) :
    l = bp.years.map (·.equity_value) := by
  unfold compute_total_comp at h1
  rw [Option.map_eq_some'] at h1
  obtain ⟨ps, hps, hbp⟩ := h1
  unfold simulate_exit_scenario at h2
  rw [exit_scenario_matches_base fpow offer hr years 1 (by norm_num) ps hps] at h2
  cases h2
  rw [← hbp]

/-- C2 counterexample: for the offer `offerR`, whose single grant has a
positive 25% refresh rate, the base projection's year-2 equity is 125 but
the exit scenario with multiplier 1 yields 100 — the claim's "including
offers whose grants have a positive refresh_rate" fails. -/
theorem c2_counterexample :
    (compute_total_comp somePrims.fpow offerR 2).map (fun p => p.years.map (·.equity_value))
      = some [0, 125] ∧
    simulate_exit_scenario somePrims.fpow offerR 1000000000 1 2 = some [0, 100] ∧
    no_positive_refresh offerR = false ∧
    ((125 : ℚ) ≠ 100) := by
  refine ⟨?_, ?_, ?_, by norm_num⟩
  · simp [compute_total_comp, project_from, calculate_year_projection, calculate_bonus,
      calculate_year_equity_value, calculate_grant_value_for_year, calculate_refresh_grants,
      calculate_refresh_grant, calculate_vested_amount, calculate_future_value,
      months_between_dates, get_year_date, py_replace_year, is_valid_date, days_in_month,
      is_leap_year, pyInt, pyMax, offerR, grantR, dJan2020]
    norm_num
  · simp [simulate_exit_scenario, exit_equity_from, exit_year_equity,
      calculate_vested_amount, calculate_future_value, months_between_dates, get_year_date,
      py_replace_year, is_valid_date, days_in_month, is_leap_year, pyInt, pyMax, offerR,
      grantR, dJan2020]
  · simp [no_positive_refresh, offerR, grantR]

/-- C2 witness: for `offerNR` (no refresh rate anywhere) the exit list with
multiplier 1 equals the base equity values `[0, 100]`. -/
theorem c2_witness :
    ([0, 100] : List ℚ) = projNR.years.map (·.equity_value) :=
  c2_exit_neutral somePrims.fpow offerNR 2 projNR [0, 100]
    (by simp [compute_total_comp, project_from, calculate_year_projection, calculate_bonus,
          calculate_year_equity_value, calculate_grant_value_for_year,
          calculate_refresh_grants, calculate_vested_amount, calculate_future_value,
          months_between_dates, get_year_date, py_replace_year, is_valid_date,
          days_in_month, is_leap_year, pyInt, pyMax, offerNR, grantNR, projNR, dJan2020])
    (by simp [simulate_exit_scenario, exit_equity_from, exit_year_equity,
          calculate_vested_amount, calculate_future_value, months_between_dates,
          get_year_date, py_replace_year, is_valid_date, days_in_month, is_leap_year,
          pyInt, pyMax, offerNR, grantNR, dJan2020])
    (by decide)

/-- The scenario loop emits, in input order, exactly the projections of the
descriptors the dispatch appends, skipping the rest. -/
theorem compare_go_filterMap (P : Prims) (bo : CompensationOffer) (years : Nat) :
    ∀ (xs : List (Nat × ScenarioDesc)) (t : List OfferProjection),
      compare_go P bo years xs = some t →
      t = xs.filterMap fun p => (run_scenario P bo years p.1 p.2).getD none := by
  intro xs
  induction xs with
  | nil =>
    intro t h
    unfold compare_go at h
    cases h
    rfl
  | cons x rest ih =>
    intro t h
    obtain ⟨i, s⟩ := x
    unfold compare_go at h
    cases hr : run_scenario P bo years i s with
    | none => rw [hr] at h; exact absurd h (by simp)
    | some r =>
      simp only [hr] at h
      cases htail : compare_go P bo years rest with
      | none => rw [htail] at h; exact absurd h (by simp)
      | some tail =>
        simp only [htail] at h
        cases h
        cases r with
        | none => simp [List.filterMap_cons, hr, ih tail htail]
        | some p => simp [List.filterMap_cons, hr, ih tail htail]

/-- C4: whenever the batch operation succeeds it returns the unmodified
base projection first, followed by one relabelled projection per appended
scenario in input order (the `filterMap` over the enumerated descriptor
list); and every descriptor missing its required field or carrying an
unknown type is skipped (`some none`: no projection, no error). -/
theorem c4_batch_structure (P : Prims) (bo : CompensationOffer)
    (scens : List ScenarioDesc) (years : Nat) (l : List OfferProjection)
    (h : compare_scenarios P bo scens years = some l) :
    (∃ bp, compute_total_comp P.fpow bo years = some bp ∧
      l = bp ::
        (scens.enum.filterMap fun p => (run_scenario P bo years p.1 p.2).getD none)) ∧
    (∀ (i : Nat) (s : ScenarioDesc), scenario_well_typed s = false →
      run_scenario P bo years i s = some none) := by
  constructor
  · unfold compare_scenarios at h
    cases hbp : compute_total_comp P.fpow bo years with
    | none => rw [hbp] at h; exact absurd h (by simp)
    | some bp =>
      simp only [hbp] at h
      cases htail : compare_go P bo years scens.enum with
      | none => rw [htail] at h; exact absurd h (by simp)
      | some tail =>
        simp only [htail] at h
        cases h
        exact ⟨bp, rfl, by rw [compare_go_filterMap P bo years scens.enum tail htail]⟩
  · intro i s hs
    unfold scenario_well_typed at hs
    unfold run_scenario
    by_cases h1 : s.type = some "start_date"
    · rw [if_pos h1] at hs ⊢
      cases hd : s.new_start_date with
      | none => rfl
      | some d => rw [hd] at hs; simp at hs
    · rw [if_neg h1] at hs ⊢
      by_cases h2 : s.type = some "exit"
      · rw [if_pos h2] at hs ⊢
        cases hd : s.exit_valuation with
        | none => rfl
        | some v => rw [hd] at hs; simp at hs
      · rw [if_neg h2] at hs ⊢
        by_cases h3 : s.type = some "growth_rate"
        · rw [if_pos h3] at hs ⊢
          cases hd : s.growth_rate with
          | none => rfl
          | some g => rw [hd] at hs; simp at hs
        · rw [if_neg h3] at hs ⊢
          by_cases h4 : s.type = some "refresh_rate"
          · rw [if_pos h4] at hs ⊢
            cases hd : s.refresh_rate with
            | none => rfl
            | some r => rw [hd] at hs; simp at hs
          · rw [if_neg h4]

/-- C4 witness: for the spec's example batch — a growth-rate scenario
followed by an exit scenario missing `exit_valuation` — the output has
exactly 2 projections: the base first, then the growth scenario's. -/
theorem c4_witness :
    ([bpB, gpB] : List OfferProjection).length = 2 ∧
    [bpB, gpB] = bpB ::
      (scensEx.enum.filterMap fun p =>
        (run_scenario somePrims offerB 1 p.1 p.2).getD none) := by
  have hcomp : compute_total_comp somePrims.fpow offerB 1 = some bpB := by
    simp [compute_total_comp, project_from, calculate_year_projection, calculate_bonus,
      calculate_year_equity_value, get_year_date, py_replace_year, is_valid_date,
      days_in_month, is_leap_year, offerB, bpB, dJan2020]
  have hc : compare_scenarios somePrims offerB scensEx 1 = some [bpB, gpB] := by
    simp [compare_scenarios, compare_go, run_scenario, simulate_growth_rate_change,
      compute_total_comp, project_from, calculate_year_projection, calculate_bonus,
      calculate_year_equity_value, get_year_date, py_replace_year, is_valid_date,
      days_in_month, is_leap_year, offerB, bpB, gpB, scensEx, dJan2020, somePrims,
      List.enum]
  obtain ⟨bp, hbp, hl⟩ := (c4_batch_structure somePrims offerB scensEx 1 [bpB, gpB] hc).1
  have hbp2 : bp = bpB := Option.some.inj (hbp.symm.trans hcomp)
  subst hbp2
  exact ⟨rfl, hl⟩
